import Mathlib

/-!
Verification of the selection-bias meme pipeline.

The repository transforms in-memory 2D grayscale images (numpy arrays with
values in [0, 1]).  We embed an image as a structure carrying its shape and a
pixel function.  Pixel values are modelled as rationals: the masker performs
only elementwise selection and order comparison, never arithmetic, so the
embedding is exact.

create_masked_stipple (src/step5_create_masked.py) validates that the two
shapes agree (raising a ValueError carrying both shapes otherwise), takes a
copy of the stipple image, and overwrites with 1.0 every pixel whose mask
value is strictly below the threshold.  We give two embeddings sharing the
pixelwise core: a pure one returning Except, and a store-based one that makes
the copy-then-mutate-in-place sequence of numpy explicit, for the claims
about non-mutation of the inputs.

create_statistics_meme (src/create_meme.py) takes the expected shape from the
first image and checks the four named images against it in order, raising a
ValueError naming the first offender; we embed the validation prefix of the
function (the rendering that follows is file output, out of scope of the
claims).
-/

namespace SelectionBias

/-- A 2D grayscale image: shape (height, width) and a pixel lookup.
Pixels outside the shape are irrelevant; equality of images is always
stated over in-bounds pixels. -/
structure Image where
  height : Nat
  width : Nat
  pixel : Nat → Nat → ℚ

/-- The numpy shape tuple (height, width). -/
def Image.shape (a : Image) : Nat × Nat := (a.height, a.width)

/-- Pixel-for-pixel equality over the (common) shape. -/
def Image.EqOn (a b : Image) : Prop :=
  a.height = b.height ∧ a.width = b.width ∧
    ∀ i, i < a.height → ∀ j, j < a.width → a.pixel i j = b.pixel i j

instance (a b : Image) : Decidable (a.EqOn b) := by
  unfold Image.EqOn
  infer_instance

/-- The payload of the ValueError raised by create_masked_stipple on a shape
mismatch: the message interpolates both shapes. -/
structure ShapeMismatch where
  stippleShape : Nat × Nat
  maskShape : Nat × Nat
deriving DecidableEq

/-- The pixelwise core of create_masked_stipple: the copy of stipple_img with
every pixel where mask_img < threshold overwritten by 1.0. -/
def maskedImage (stipple_img mask_img : Image) (threshold : ℚ) : Image :=
  { height := stipple_img.height
    width := stipple_img.width
    pixel := fun i j =>
      if mask_img.pixel i j < threshold then 1 else stipple_img.pixel i j }

/-- create_masked_stipple from src/step5_create_masked.py: validate shapes,
then copy and overwrite the below-threshold region with 1.0.  The print
statistics in the source do not affect the returned array and are omitted. -/
def create_masked_stipple (stipple_img mask_img : Image) (threshold : ℚ) :
    Except ShapeMismatch Image :=
  if stipple_img.shape ≠ mask_img.shape then
    Except.error ⟨stipple_img.shape, mask_img.shape⟩
  else
    Except.ok (maskedImage stipple_img mask_img threshold)

/-- Store-based embedding of create_masked_stipple, making array identity and
in-place update explicit.  The store is a list of live arrays addressed by
index.  The source raises before any copy on a shape mismatch (store returned
untouched); otherwise stipple_img.copy() allocates a fresh array at the end of
the store and the fancy-indexing assignment mutates only that fresh array. -/
def create_masked_stipple_run (store : List Image) (sId mId : Nat)
    (threshold : ℚ) : Option (List Image × Except ShapeMismatch Nat) :=
  match store[sId]?, store[mId]? with
  | some stipple_img, some mask_img =>
      if stipple_img.shape ≠ mask_img.shape then
        some (store, Except.error ⟨stipple_img.shape, mask_img.shape⟩)
      else
        some ((store ++ [stipple_img]).set store.length
                (maskedImage stipple_img mask_img threshold),
              Except.ok store.length)
  | _, _ => none

/-- Concrete 2x2 stipple image: one black dot at (0,0), white elsewhere. -/
def Sw : Image :=
  { height := 2, width := 2, pixel := fun i j => if i = 0 ∧ j = 0 then 0 else 1 }

/-- Concrete 2x2 mask: black (0) on row 1, white (1) on row 0. -/
def Mw : Image :=
  { height := 2, width := 2, pixel := fun i _ => if i = 1 then 0 else 1 }

/-- Concrete 2x2 mask: black (0) on column 1, white (1) on column 0. -/
def Mw2 : Image :=
  { height := 2, width := 2, pixel := fun _ j => if j = 1 then 0 else 1 }

/-- Concrete all-zeros 2x2 mask. -/
def zeroMask : Image := { height := 2, width := 2, pixel := fun _ _ => 0 }

/-- Concrete 2x3 all-white image (wrong shape for the 2x2 ones). -/
def badMask : Image := { height := 2, width := 3, pixel := fun _ _ => 1 }

/-- C1: for same-shaped stipple and mask images and any threshold t,
create_masked_stipple returns an array of the shape of the stipple image
whose every pixel is exactly 1.0 where the mask is strictly below t and
exactly the stipple pixel otherwise; pixels with mask value exactly t are
kept unchanged. -/
theorem C1_apply_mask_pointwise (S M : Image) (t : ℚ) (h : S.shape = M.shape) :
    ∃ R, create_masked_stipple S M t = Except.ok R ∧ R.shape = S.shape ∧
      (∀ i, i < R.height → ∀ j, j < R.width →
        R.pixel i j = if M.pixel i j < t then 1 else S.pixel i j) ∧
      (∀ i, i < R.height → ∀ j, j < R.width → M.pixel i j = t →
        R.pixel i j = S.pixel i j) := by
  refine ⟨maskedImage S M t, by simp [create_masked_stipple, h], rfl, ?_, ?_⟩
  · intro i _ j _
    rfl
  · intro i _ j _ hm
    simp [maskedImage, hm]

/-- C1 witness: the theorem instantiated at a concrete stipple, mask and
threshold. -/
theorem C1_witness :
    Sw.shape = Mw.shape ∧
      ∃ R, create_masked_stipple Sw Mw (1/2) = Except.ok R ∧ R.shape = Sw.shape ∧
        (∀ i, i < R.height → ∀ j, j < R.width →
          R.pixel i j = if Mw.pixel i j < (1/2) then 1 else Sw.pixel i j) ∧
        (∀ i, i < R.height → ∀ j, j < R.width → Mw.pixel i j = (1/2) →
          R.pixel i j = Sw.pixel i j) :=
  ⟨rfl, C1_apply_mask_pointwise Sw Mw (1/2) rfl⟩

/-- C2: create_masked_stipple raises the shape-mismatch error exactly when
the two shapes differ, the error payload carries both shapes (stipple first,
mask second), and on the error path the store of live arrays is returned
untouched: the check precedes the copy, so nothing is allocated or written. -/
theorem C2_shape_mismatch_iff (store : List Image) (sId mId : Nat) (t : ℚ)
    (stipple mask : Image)
    (hs : store[sId]? = some stipple) (hm : store[mId]? = some mask) :
    ((∃ e, create_masked_stipple_run store sId mId t =
        some (store, Except.error e)) ↔ stipple.shape ≠ mask.shape) ∧
    (∀ store2 e,
      create_masked_stipple_run store sId mId t =
          some (store2, Except.error e) →
        store2 = store ∧ e.stippleShape = stipple.shape ∧
          e.maskShape = mask.shape) := by
  unfold create_masked_stipple_run
  rw [hs, hm]
  by_cases hsh : stipple.shape = mask.shape
  · constructor
    · constructor
      · rintro ⟨e, he⟩
        simp [hsh] at he
      · intro hne
        exact absurd hsh hne
    · intro store2 e he
      simp [hsh] at he
  · constructor
    · constructor
      · intro _
        exact hsh
      · intro _
        exact ⟨⟨stipple.shape, mask.shape⟩, by simp [hsh]⟩
    · intro store2 e he
      simp only [if_pos hsh, Option.some.injEq, Prod.mk.injEq] at he
      obtain ⟨h1, h2⟩ := he
      have h3 := Except.error.inj h2
      exact ⟨h1.symm, by rw [← h3], by rw [← h3]⟩

/-- C2 witness: the theorem instantiated on a concrete two-element store
holding a 2x2 stipple image and a 2x3 mask. -/
theorem C2_witness :
    ([Sw, badMask] : List Image)[0]? = some Sw ∧
    ([Sw, badMask] : List Image)[1]? = some badMask ∧
    (((∃ e, create_masked_stipple_run [Sw, badMask] 0 1 (1/2) =
        some ([Sw, badMask], Except.error e)) ↔ Sw.shape ≠ badMask.shape) ∧
    (∀ store2 e,
      create_masked_stipple_run [Sw, badMask] 0 1 (1/2) =
          some (store2, Except.error e) →
        store2 = [Sw, badMask] ∧ e.stippleShape = Sw.shape ∧
          e.maskShape = badMask.shape)) :=
  ⟨rfl, rfl, C2_shape_mismatch_iff [Sw, badMask] 0 1 (1/2) Sw badMask rfl rfl⟩

/-- C3: applying the same mask and threshold a second time changes nothing:
the pixels already erased to 1.0 are erased again to 1.0 and the kept pixels
are kept again. -/
theorem C3_idempotent (S M : Image) (t : ℚ) (h : S.shape = M.shape) :
    ∃ R, create_masked_stipple S M t = Except.ok R ∧
      ∃ R2, create_masked_stipple R M t = Except.ok R2 ∧ R2.EqOn R := by
  refine ⟨maskedImage S M t, by simp [create_masked_stipple, h],
    maskedImage (maskedImage S M t) M t,
    by simp [create_masked_stipple, maskedImage, Image.shape] at h ⊢; exact h,
    rfl, rfl, ?_⟩
  intro i _ j _
  by_cases hm : M.pixel i j < t <;> simp [maskedImage, hm]

/-- C3 witness: idempotence at a concrete stipple, mask and threshold. -/
theorem C3_witness :
    Sw.shape = Mw.shape ∧
      ∃ R, create_masked_stipple Sw Mw (1/2) = Except.ok R ∧
        ∃ R2, create_masked_stipple R Mw (1/2) = Except.ok R2 ∧ R2.EqOn R :=
  ⟨rfl, C3_idempotent Sw Mw (1/2) rfl⟩

/-- C4: with threshold 0 and a mask whose in-bounds values are all
nonnegative, no pixel satisfies mask < 0, so the result equals the input
stipple image pixel for pixel. -/
theorem C4_threshold_zero_noop (S M : Image) (h : S.shape = M.shape)
    (hM : ∀ i, i < M.height → ∀ j, j < M.width → 0 ≤ M.pixel i j) :
    ∃ R, create_masked_stipple S M 0 = Except.ok R ∧ R.EqOn S := by
  have hh : S.height = M.height := congrArg Prod.fst h
  have hw : S.width = M.width := congrArg Prod.snd h
  refine ⟨maskedImage S M 0, by simp [create_masked_stipple, h], rfl, rfl, ?_⟩
  intro i hi j hj
  have : ¬ M.pixel i j < 0 :=
    not_lt.mpr (hM i (hh ▸ hi) j (hw ▸ hj))
  simp [maskedImage, this]

/-- C4 witness: threshold 0 is a no-op on a concrete nonnegative mask. -/
theorem C4_witness :
    Sw.shape = Mw.shape ∧
    (∀ i, i < Mw.height → ∀ j, j < Mw.width → 0 ≤ Mw.pixel i j) ∧
    ∃ R, create_masked_stipple Sw Mw 0 = Except.ok R ∧ R.EqOn Sw :=
  ⟨rfl, by decide, C4_threshold_zero_noop Sw Mw rfl (by decide)⟩

/-- C5: with threshold 1 the result erases to 1.0 exactly the pixels whose
mask value is strictly below 1 and keeps the pixels whose mask value is 1;
in particular, with an all-zeros mask every pixel of the result is 1.0. -/
theorem C5_threshold_one (S M : Image) (h : S.shape = M.shape) :
    ∃ R, create_masked_stipple S M 1 = Except.ok R ∧
      (∀ i, i < R.height → ∀ j, j < R.width →
        R.pixel i j = if M.pixel i j < 1 then 1 else S.pixel i j) ∧
      (∀ i, i < R.height → ∀ j, j < R.width → M.pixel i j = 1 →
        R.pixel i j = S.pixel i j) ∧
      ((∀ i, i < M.height → ∀ j, j < M.width → M.pixel i j = 0) →
        ∀ i, i < R.height → ∀ j, j < R.width → R.pixel i j = 1) := by
  have hh : S.height = M.height := congrArg Prod.fst h
  have hw : S.width = M.width := congrArg Prod.snd h
  refine ⟨maskedImage S M 1, by simp [create_masked_stipple, h], ?_, ?_, ?_⟩
  · intro i _ j _
    rfl
  · intro i _ j _ hm
    simp [maskedImage, hm]
  · intro hz i hi j hj
    have h0 : M.pixel i j = 0 := hz i (hh ▸ hi) j (hw ▸ hj)
    simp [maskedImage, h0]

/-- C5 witness: threshold 1 applied to a concrete stipple with the all-zeros
mask. -/
theorem C5_witness :
    Sw.shape = zeroMask.shape ∧
      ∃ R, create_masked_stipple Sw zeroMask 1 = Except.ok R ∧
        (∀ i, i < R.height → ∀ j, j < R.width →
          R.pixel i j = if zeroMask.pixel i j < 1 then 1 else Sw.pixel i j) ∧
        (∀ i, i < R.height → ∀ j, j < R.width → zeroMask.pixel i j = 1 →
          R.pixel i j = Sw.pixel i j) ∧
        ((∀ i, i < zeroMask.height → ∀ j, j < zeroMask.width →
            zeroMask.pixel i j = 0) →
          ∀ i, i < R.height → ∀ j, j < R.width → R.pixel i j = 1) :=
  ⟨rfl, C5_threshold_one Sw zeroMask rfl⟩

/-- C6: the run leaves the two input arrays exactly as they were: the result
lives at a fresh index distinct from both input indices, the input indices
still hold their original arrays, and the fresh index holds the masked copy. -/
theorem C6_no_mutation (store : List Image) (sId mId : Nat) (t : ℚ)
    (stipple mask : Image)
    (hs : store[sId]? = some stipple) (hm : store[mId]? = some mask)
    (hsh : stipple.shape = mask.shape) :
    ∃ store2, create_masked_stipple_run store sId mId t =
        some (store2, Except.ok store.length) ∧
      store.length ≠ sId ∧ store.length ≠ mId ∧
      store2[sId]? = some stipple ∧ store2[mId]? = some mask ∧
      store2[store.length]? = some (maskedImage stipple mask t) := by
  have hslt : sId < store.length := by
    by_contra hge
    rw [List.getElem?_eq_none (Nat.le_of_not_lt hge)] at hs
    exact Option.noConfusion hs
  have hmlt : mId < store.length := by
    by_contra hge
    rw [List.getElem?_eq_none (Nat.le_of_not_lt hge)] at hm
    exact Option.noConfusion hm
  refine ⟨(store ++ [stipple]).set store.length (maskedImage stipple mask t),
    ?_, Nat.ne_of_gt hslt, Nat.ne_of_gt hmlt, ?_, ?_, ?_⟩
  · unfold create_masked_stipple_run
    rw [hs, hm]
    simp [hsh]
  · rw [List.getElem?_set_ne (Nat.ne_of_gt hslt),
      List.getElem?_append_left hslt]
    exact hs
  · rw [List.getElem?_set_ne (Nat.ne_of_gt hmlt),
      List.getElem?_append_left hmlt]
    exact hm
  · exact List.getElem?_set_self (by simp)

/-- C6 witness: the run on a concrete store holding a stipple image and a
same-shaped mask. -/
theorem C6_witness :
    ([Sw, Mw] : List Image)[0]? = some Sw ∧
    ([Sw, Mw] : List Image)[1]? = some Mw ∧
    Sw.shape = Mw.shape ∧
    ∃ store2, create_masked_stipple_run [Sw, Mw] 0 1 (1/2) =
        some (store2, Except.ok ([Sw, Mw] : List Image).length) ∧
      ([Sw, Mw] : List Image).length ≠ 0 ∧
      ([Sw, Mw] : List Image).length ≠ 1 ∧
      store2[0]? = some Sw ∧ store2[1]? = some Mw ∧
      store2[([Sw, Mw] : List Image).length]? =
        some (maskedImage Sw Mw (1/2)) :=
  ⟨rfl, rfl, rfl, C6_no_mutation [Sw, Mw] 0 1 (1/2) Sw Mw rfl rfl rfl⟩

/-- C9: if every in-bounds pixel of the stipple image lies in [0, 1], then so
does every in-bounds pixel of the result: each output pixel is either the
constant 1.0 or a pixel of the stipple image. -/
theorem C9_range_invariant (S M : Image) (t : ℚ) (h : S.shape = M.shape)
    (hS : ∀ i, i < S.height → ∀ j, j < S.width →
      0 ≤ S.pixel i j ∧ S.pixel i j ≤ 1) :
    ∃ R, create_masked_stipple S M t = Except.ok R ∧
      ∀ i, i < R.height → ∀ j, j < R.width →
        0 ≤ R.pixel i j ∧ R.pixel i j ≤ 1 := by
  refine ⟨maskedImage S M t, by simp [create_masked_stipple, h], ?_⟩
  intro i hi j hj
  by_cases hm : M.pixel i j < t
  · simp [maskedImage, hm]
  · have := hS i hi j hj
    simpa [maskedImage, hm] using this

/-- C9 witness: the range invariant at a concrete stipple and mask. -/
theorem C9_witness :
    Sw.shape = Mw.shape ∧
    (∀ i, i < Sw.height → ∀ j, j < Sw.width →
      0 ≤ Sw.pixel i j ∧ Sw.pixel i j ≤ 1) ∧
    ∃ R, create_masked_stipple Sw Mw (1/2) = Except.ok R ∧
      ∀ i, i < R.height → ∀ j, j < R.width →
        0 ≤ R.pixel i j ∧ R.pixel i j ≤ 1 :=
  ⟨rfl, by decide, C9_range_invariant Sw Mw (1/2) rfl (by decide)⟩

/-- C10: applying two same-shaped masks in either order yields the same image
pixel for pixel: each application only overwrites its own below-threshold
region with the constant 1.0. -/
theorem C10_mask_order_commutes (S M1 M2 : Image) (t : ℚ)
    (h1 : S.shape = M1.shape) (h2 : S.shape = M2.shape) :
    ∃ R1 R12 R2 R21,
      create_masked_stipple S M1 t = Except.ok R1 ∧
      create_masked_stipple R1 M2 t = Except.ok R12 ∧
      create_masked_stipple S M2 t = Except.ok R2 ∧
      create_masked_stipple R2 M1 t = Except.ok R21 ∧
      R12.EqOn R21 := by
  refine ⟨maskedImage S M1 t, maskedImage (maskedImage S M1 t) M2 t,
    maskedImage S M2 t, maskedImage (maskedImage S M2 t) M1 t,
    by simp [create_masked_stipple, h1],
    by simp [create_masked_stipple, maskedImage, Image.shape] at h2 ⊢; exact h2,
    by simp [create_masked_stipple, h2],
    by simp [create_masked_stipple, maskedImage, Image.shape] at h1 ⊢; exact h1,
    rfl, rfl, ?_⟩
  intro i _ j _
  by_cases hm1 : M1.pixel i j < t <;> by_cases hm2 : M2.pixel i j < t <;>
    simp [maskedImage, hm1, hm2]

/-- C10 witness: the two concrete masks applied in both orders to a concrete
stipple image. -/
theorem C10_witness :
    Sw.shape = Mw.shape ∧ Sw.shape = Mw2.shape ∧
    ∃ R1 R12 R2 R21,
      create_masked_stipple Sw Mw (1/2) = Except.ok R1 ∧
      create_masked_stipple R1 Mw2 (1/2) = Except.ok R12 ∧
      create_masked_stipple Sw Mw2 (1/2) = Except.ok R2 ∧
      create_masked_stipple R2 Mw (1/2) = Except.ok R21 ∧
      R12.EqOn R21 :=
  ⟨rfl, rfl, C10_mask_order_commutes Sw Mw Mw2 (1/2) rfl rfl⟩

/-- The payload of the ValueError raised by create_statistics_meme: the
message interpolates the name of the first mismatching image, its shape, and
the expected shape taken from the first image. -/
structure MemeShapeMismatch where
  offender : String
  actual : Nat × Nat
  expected : Nat × Nat
deriving DecidableEq

/-- The validation loop of create_statistics_meme: walk the named images in
order and report the first one whose shape differs from the expected shape. -/
def validateImages : List (String × Image) → Nat × Nat →
    Option MemeShapeMismatch
  | [], _ => none
  | (name, img) :: rest, expected =>
      if img.shape ≠ expected then some ⟨name, img.shape, expected⟩
      else validateImages rest expected

/-- The shape-validation prefix of create_statistics_meme from
src/create_meme.py: the expected (height, width) is unpacked from the first
image, then the four named images are checked in order against it.  The
rendering and file write that follow the validation are out of scope. -/
def create_statistics_meme (original_img stipple_img block_letter_img
    masked_stipple_img : Image) : Except MemeShapeMismatch Unit :=
  match validateImages
      [("original_img", original_img), ("stipple_img", stipple_img),
       ("block_letter_img", block_letter_img),
       ("masked_stipple_img", masked_stipple_img)]
      original_img.shape with
  | some e => Except.error e
  | none => Except.ok ()

/-- Concrete 50x50 all-white image. -/
def whiteImg : Image := { height := 50, width := 50, pixel := fun _ _ => 1 }

/-- Concrete 50x51 all-white image (the odd shape). -/
def oddImg : Image := { height := 50, width := 51, pixel := fun _ _ => 1 }

/-- C7 counterexample: with the odd-shaped (50,51) image in the first
position among three (50,50) images, the raised error names stipple_img,
which is one of the (50,50) images, not the odd-shaped original_img: the
error does not identify the odd-shaped image when it occupies the first
position, because the expected shape is unpacked from the first image. -/
theorem C7_counterexample :
    create_statistics_meme oddImg whiteImg whiteImg whiteImg =
      Except.error ⟨"stipple_img", (50, 50), (50, 51)⟩ ∧
    "stipple_img" ≠ "original_img" ∧
    ((50, 50) : Nat × Nat) ≠ ((50, 51) : Nat × Nat) := by
  refine ⟨rfl, by decide, by decide⟩

/-- C7 amended: when exactly one of the four images has a shape different
from the other three, a shape-mismatch error is always raised; if the odd
image is in position two, three or four it is identified by name and its
shape is reported against the expected shape taken from the first image, but
if the odd image is the first one, the error instead names stipple_img (the
second image), reporting the shape shared by the other three against the
expected shape taken from the odd first image. -/
theorem C7_shape_validation (o s b m : Image) (good odd : Nat × Nat)
    (hne : odd ≠ good) :
    (o.shape = odd → s.shape = good → b.shape = good → m.shape = good →
      create_statistics_meme o s b m =
        Except.error ⟨"stipple_img", good, odd⟩) ∧
    (o.shape = good → s.shape = odd → b.shape = good → m.shape = good →
      create_statistics_meme o s b m =
        Except.error ⟨"stipple_img", odd, good⟩) ∧
    (o.shape = good → s.shape = good → b.shape = odd → m.shape = good →
      create_statistics_meme o s b m =
        Except.error ⟨"block_letter_img", odd, good⟩) ∧
    (o.shape = good → s.shape = good → b.shape = good → m.shape = odd →
      create_statistics_meme o s b m =
        Except.error ⟨"masked_stipple_img", odd, good⟩) := by
  have hne2 : good ≠ odd := fun hg => hne hg.symm
  refine ⟨?_, ?_, ?_, ?_⟩ <;> intro ho hs hb hm <;>
    simp [create_statistics_meme, validateImages, ho, hs, hb, hm, hne, hne2]

/-- C7 witness: the amended theorem instantiated with the odd (50,51) image
in each of the four positions among concrete (50,50) images. -/
theorem C7_witness :
    ((50, 51) : Nat × Nat) ≠ ((50, 50) : Nat × Nat) ∧
    (oddImg.shape = (50, 51) → whiteImg.shape = (50, 50) →
      whiteImg.shape = (50, 50) → whiteImg.shape = (50, 50) →
      create_statistics_meme oddImg whiteImg whiteImg whiteImg =
        Except.error ⟨"stipple_img", (50, 50), (50, 51)⟩) ∧
    (whiteImg.shape = (50, 50) → oddImg.shape = (50, 51) →
      whiteImg.shape = (50, 50) → whiteImg.shape = (50, 50) →
      create_statistics_meme whiteImg oddImg whiteImg whiteImg =
        Except.error ⟨"stipple_img", (50, 51), (50, 50)⟩) ∧
    (whiteImg.shape = (50, 50) → whiteImg.shape = (50, 50) →
      oddImg.shape = (50, 51) → whiteImg.shape = (50, 50) →
      create_statistics_meme whiteImg whiteImg oddImg whiteImg =
        Except.error ⟨"block_letter_img", (50, 51), (50, 50)⟩) ∧
    (whiteImg.shape = (50, 50) → whiteImg.shape = (50, 50) →
      whiteImg.shape = (50, 50) → oddImg.shape = (50, 51) →
      create_statistics_meme whiteImg whiteImg whiteImg oddImg =
        Except.error ⟨"masked_stipple_img", (50, 51), (50, 50)⟩) :=
  ⟨by decide,
   (C7_shape_validation oddImg whiteImg whiteImg whiteImg
      (50, 50) (50, 51) (by decide)).1,
   (C7_shape_validation whiteImg oddImg whiteImg whiteImg
      (50, 50) (50, 51) (by decide)).2.1,
   (C7_shape_validation whiteImg whiteImg oddImg whiteImg
      (50, 50) (50, 51) (by decide)).2.2.1,
   (C7_shape_validation whiteImg whiteImg whiteImg oddImg
      (50, 50) (50, 51) (by decide)).2.2.2⟩

end SelectionBias
